import Mathlib

/-!
Verification development for `src/orientation/strategy_relay_defensive.py`,
the defensive strategy relay: a five-stage sequential pipeline
(detect, analyze evidence, extract counter-requirements, score viability,
aggregate gaps) that drives an external agent and passes file artifacts
between phases.

The embedding is a shallow one: the orchestrator and the five phase
functions become pure Lean functions over an explicit model of the
observable environment.  The environment consists of

  * a filesystem `FS` mapping artifact paths (plain strings) to an
    optional content token (`none` means the file does not exist);
  * an `AgentBehavior` oracle describing, per agent invocation, whether
    the agent created its designated output file (and with which content
    token), and, for the Phase 0 invocation, the resulting state of the
    `ATTACKS.json` file it was asked to write.

Each run produces a trace of externally observable events: agent
invocations (identified by the `phase_name` strings the source passes to
`run_agent`) and `time.sleep` calls.  Prompt and context strings are data,
not control flow, and are not tracked, with one exception: Phase D
mandates a bit-exact report header inside its task string, so that task
string is embedded verbatim as `phase_d_task`.
-/

namespace StrategyRelay

/-- One attack record, as stored in the `attacks` list of `ATTACKS.json`:
`{id, name, targets[], opposing_argument, cases_cited_by_opponent[],
danger_level, status}`.  `jurisdiction` is an optional extra key that
Phase B reads via `attack.get("jurisdiction", "Georgia")`. -/
structure Attack where
  id : String
  name : String
  targets : List String := []
  opposing_argument : String := ""
  cases_cited_by_opponent : List String := []
  danger_level : String := ""
  status : String := ""
  jurisdiction : Option String := none
  deriving DecidableEq, Repr

/-- State of the `ATTACKS.json` file: missing, present but not valid JSON,
or parsed with its `attacks` list (a present file whose JSON object lacks
the `attacks` key is modelled as `parsed []`, since `data.get("attacks")`
is then falsy exactly like an empty list). -/
inductive AttacksFileState
  | absent
  | unparseable
  | parsed (attacks : List Attack)
  deriving DecidableEq, Repr

/-- The filesystem, restricted to what the orchestrator observes: for each
path, `none` when no file exists there, `some v` when a file with content
token `v` exists. -/
abbrev FS : Type := String → Option Nat

/-- Externally observable events of a run: one agent invocation (recorded
by the `phase_name` and `output_file` arguments the source passes to
`run_agent`), or one `time.sleep(seconds)` call. -/
inductive Event
  | agentCall (phase_name : String) (output_file : String)
  | sleep (seconds : Nat)
  deriving DecidableEq, Repr

/-- Oracle for the opaque agent capability and the clock.
`creates k = some v` means the k-th agent invocation of the run leaves a
file with content token `v` at its designated output path; `none` means
the agent failed to create the file.  `detect` is the state of
`ATTACKS.json` after the Phase 0 invocation (`absent` covers the agent
not creating it).  `now` is the timestamp string `datetime.now()`
formats to inside prompt text. -/
structure AgentBehavior where
  creates : Nat → Option Nat
  detect : AttacksFileState := .absent
  now : String := ""

/-- Modelled from the spec: `run_agent` from `strategy_utils` (the module
is not under `src/`).  Spec section 4.2: one invocation per call, success
defined as "file exists after the call returns" when an output file is
designated; retries and timeout are internal to the call and terminal
failure is logged, not raised.  The model records the invocation event,
applies the agent's file effect at the designated output path, and
advances the invocation counter. -/
def run_agent (beh : AgentBehavior) (fs : FS) (k : Nat)
    (phase_name : String) (output_file : String) :
    List Event × FS × Nat :=
  ( [Event.agentCall phase_name output_file],
    match beh.creates k with
    | some v => fun p => if p = output_file then some v else fs p
    | none => fs,
    k + 1 )

/-- Modelled from the spec: the observable behaviour of
`load_json_file(path)` followed by `.get("attacks", [])`, with
`load_json_file` from `strategy_utils` (not under `src/`).  Spec section
4.1: read failures are signalled by returning a null/empty value, never
by raising to the caller; section 7: no exceptions cross phase
boundaries.  Accordingly a present-but-unparseable file loads as an
empty attacks list. -/
def loadedAttacks : AttacksFileState → List Attack
  | .parsed l => l
  | _ => []

/-- `path.exists()` for the `ATTACKS.json` path. -/
def attacksFileExists : AttacksFileState → Bool
  | .absent => false
  | _ => true

/-- Result of a Phase A/B/D/E phase function: the events it emitted, the
filesystem and invocation counter afterwards, the function's Python
return value (`result`), and, where tracked, the task string passed to
the agent (`task`; prompt text of the other phases is untracked data). -/
structure PhaseOut where
  events : List Event
  fs : FS
  k : Nat
  result : Option String
  task : Option String := none

/-- Result of `phase_0_detect_attacks`: events, next invocation counter,
the state of `ATTACKS.json` after the call, and the Python return value
(the output path, or `None` on postcondition failure). -/
structure Phase0Out where
  events : List Event
  k : Nat
  state : AttacksFileState
  result : Option String

/-- Phase 0, the attack detector (source lines 75-198).  It asks the agent
to write `{strategy_dir}/ATTACKS.json`, then checks the postcondition:
the file exists (`if not output_file.exists(): return None`), it loads to
a truthy value with a truthy `attacks` entry
(`if not data or not data.get("attacks"): return None`); otherwise it
returns the output path. -/
def phase_0_detect_attacks (beh : AgentBehavior) (k : Nat)
    (strategy_dir : String) : Phase0Out :=
  let output_file := strategy_dir ++ "/ATTACKS.json"
  let result : Option String :=
    match beh.detect with
    | .absent => none
    | .unparseable => none
    | .parsed l => if l.isEmpty then none else some output_file
  { events := [Event.agentCall ("Phase_0_Attack_Detection") output_file],
    k := k + 1, state := beh.detect, result := result }

/-- Phase A, the evidence analyst (source lines 205-345).  One agent call
with `phase_name = f"Phase_A_Evidence_{attack_id}"` and
`output_file = output_dir / "EVIDENCE_ANALYSIS.json"`; the exists-check
after the call only logs (DONE or ERROR) and the function returns
`output_file` on every path. -/
def phase_a_evidence_analysis (beh : AgentBehavior) (fs : FS) (k : Nat)
    (attack : Attack) (output_dir : String) : PhaseOut :=
  let output_file := output_dir ++ "/EVIDENCE_ANALYSIS.json"
  let r := run_agent beh fs k ("Phase_A_Evidence_" ++ attack.id) output_file
  { events := r.1, fs := r.2.1, k := r.2.2, result := some output_file }

/-- Phase B, counter-requirements plus fact matching (source lines
352-495).  One agent call with `phase_name = f"Phase_B_Counter_Req_{id}"`
and `output_file = output_dir / "counter_requirements.json"`; like Phase
A it returns `output_file` unconditionally.  `evidence_analysis_file` is
only loaded into the prompt context (untracked data). -/
def phase_b_counter_requirements (beh : AgentBehavior) (fs : FS) (k : Nat)
    (attack : Attack) (evidence_analysis_file : Option String)
    (output_dir : String) : PhaseOut :=
  let output_file := output_dir ++ "/counter_requirements.json"
  let r := run_agent beh fs k ("Phase_B_Counter_Req_" ++ attack.id) output_file
  { events := r.1, fs := r.2.1, k := r.2.2, result := some output_file }

/-- The task string Phase D passes to the agent, verbatim from source
lines 533-571 (the f-string with `attack_id`, `attack_name`,
`output_file` and the `datetime.now().strftime("%Y-%m-%d %H:%M")`
timestamp interpolated). -/
def phase_d_task (attack : Attack) (output_file : String) (now : String) : String :=
  "Analyze the rebuttal strength for Attack " ++ attack.id ++ ": " ++ attack.name ++
  "\n\nYour analysis must include:\n\n1. REBUTTAL STRENGTH SCORE\n   - STRONG: All counter-requirements proven, evidence gaps identified, burden analysis favorable\n   - MODERATE: Most counter-requirements supported, some gaps in our evidence\n   - WEAK: Critical counter-requirements unproven\n   - FATAL: Cannot rebut this attack\n\n2. COUNTER-REQUIREMENT SUMMARY TABLE\n   For each CR: Status (✅/⚠️/❌) and evidence strength\n\n3. THE CRITICAL DISTINCTIONS\n   How do we distinguish our position from what they claim?\n   (e.g., \"This is contract authenticity, not \x27show me the note\x27\")\n\n4. ADVERSARIAL CHECK\n   Role-play as opposing counsel responding to our rebuttal.\n   - What will they say?\n   - How do we handle their surrebuttal?\n\n5. EVIDENCE MAPPED\n   List all evidence supporting our rebuttal, organized by category.\n\n6. GAPS AND RECOMMENDATIONS\n   - What\x27s still missing?\n   - What discovery would help?\n\nOUTPUT: Write a MARKDOWN file to " ++ output_file ++
  ". Start the file with this header:\n\n" ++
  "# Analysis: " ++ attack.name ++
  "\n\n**Generated**: " ++ now ++
  "\n**Attack ID**: " ++ attack.id ++
  "\n\n---\n\nThen write the full analysis with clear sections."

/-- Phase D, the viability analyst (source lines 502-591).  One agent call
with `phase_name = f"Phase_D_Viability_{attack_id}"`, task `phase_d_task`
and `output_file = output_dir / "analysis.md"`; returns `output_file`
unconditionally.  The two input artifact paths are only loaded into the
prompt context (untracked data). -/
def phase_d_viability_analysis (beh : AgentBehavior) (fs : FS) (k : Nat)
    (attack : Attack) (evidence_analysis_file counter_req_file : Option String)
    (output_dir : String) : PhaseOut :=
  let output_file := output_dir ++ "/analysis.md"
  let r := run_agent beh fs k ("Phase_D_Viability_" ++ attack.id) output_file
  { events := r.1, fs := r.2.1, k := r.2.2, result := some output_file,
    task := some (phase_d_task attack output_file beh.now) }

/-- Phase E, the gap reporter (source lines 598-694).  One agent call with
`phase_name = "Phase_E_Gap_Analysis"` and
`output_file = strategy_dir / "GAP_ANALYSIS.md"`; returns `output_file`
unconditionally.  The per-attack artifacts are globbed only to build the
prompt context (untracked data). -/
def phase_e_gap_analysis (beh : AgentBehavior) (fs : FS) (k : Nat)
    (strategy_dir : String) : PhaseOut :=
  let output_file := strategy_dir ++ "/GAP_ANALYSIS.md"
  let r := run_agent beh fs k ("Phase_E_Gap_Analysis") output_file
  { events := r.1, fs := r.2.1, k := r.2.2, result := some output_file }

/-- Parsed command-line arguments of `main` (source lines 702-752).
Defaults mirror argparse: flags default to false, `--agent` to
`"auggie"`, `--motion` to `"Motion to Dismiss"`. -/
structure Args where
  case_folder : String
  workspace : String
  strategy : String
  agent : String := "auggie"
  attack : Option String := none
  skip_evidence : Bool := false
  skip_counter_req : Bool := false
  auto_detect : Bool := false
  motion : String := "Motion to Dismiss"

/-- The rest of the environment a run observes: whether the case folder
and workspace directory exist, the initial `ATTACKS.json` state, the
initial artifact filesystem, and the agent oracle.  (`settings.json` is
read only to extract `file_search_store_id`, which feeds prompt text and
is untracked.) -/
structure World where
  case_folder_exists : Bool
  workspace_exists : Bool
  attacks_file : AttacksFileState
  fs : FS
  behavior : AgentBehavior

/-- Result of one `main` run: the event trace, the process exit code
(1 via `sys.exit(1)`, 0 on normal return), and the final filesystem and
`ATTACKS.json` state. -/
structure RunResult where
  events : List Event
  exitCode : Nat
  fs : FS
  attacks_file : AttacksFileState

/-- `strategy_dir = case_folder / "workspaces" / workspace / "strategies" / strategy`
(source lines 755-757). -/
def strategyDir (args : Args) : String :=
  args.case_folder ++ "/workspaces/" ++ args.workspace ++ "/strategies/" ++ args.strategy

/-- The slug of an attack name (source line 833):
`attack["name"].lower().replace(" ", "_").replace("-", "_")[:30]`.
Lowering is per character; since both replaced patterns are single
characters, `str.replace` is the per-character substitution; `[:30]`
keeps the first 30 characters. -/
def slug (name : String) : String :=
  String.mk ((((name.data.map Char.toLower).map
      (fun c => if c = ' ' then '_' else c)).map
      (fun c => if c = '-' then '_' else c)).take 30)

/-- Per-attack directory name `f"{attack_id}_{attack_name_slug}"`
(source line 834). -/
def attackDirName (a : Attack) : String :=
  a.id ++ "_" ++ slug a.name

/-- Per-attack directory `strategy_dir / "attacks" / f"{id}_{slug}"`
(source line 834). -/
def attackDir (strategy_dir : String) (a : Attack) : String :=
  strategy_dir ++ "/attacks/" ++ attackDirName a

/-- Result of processing one attack in the main loop (source lines
831-886): events, filesystem and counter afterwards, the derived attack
directory, and the values of the `evidence_file` and `counter_req_file`
variables after their respective steps (these are what Phases B and D
receive). -/
structure AttackOut where
  events : List Event
  fs : FS
  k : Nat
  dir : String
  evidence_file : Option String
  counter_req_file : Option String

/-- The per-attack body of the main loop (source lines 831-886): derive
the attack directory; Phase A unless `--skip-evidence` and
`EVIDENCE_ANALYSIS.json` already exists; sleep 5; Phase B unless
`--skip-counter-req` and `counter_requirements.json` already exists;
sleep 5; Phase D (unconditional). -/
def processAttack (args : Args) (beh : AgentBehavior) (fs : FS) (k : Nat)
    (strategy_dir : String) (attack : Attack) : AttackOut :=
  let dir := attackDir strategy_dir attack
  let ev0 := dir ++ "/EVIDENCE_ANALYSIS.json"
  let sa : List Event × FS × Nat × Option String :=
    if args.skip_evidence && (fs ev0).isSome then
      ([], fs, k, some ev0)
    else
      let o := phase_a_evidence_analysis beh fs k attack dir
      (o.events, o.fs, o.k, o.result)
  let cr0 := dir ++ "/counter_requirements.json"
  let sb : List Event × FS × Nat × Option String :=
    if args.skip_counter_req && (sa.2.1 cr0).isSome then
      ([], sa.2.1, sa.2.2.1, some cr0)
    else
      let o := phase_b_counter_requirements beh sa.2.1 sa.2.2.1 attack sa.2.2.2 dir
      (o.events, o.fs, o.k, o.result)
  let oD := phase_d_viability_analysis beh sb.2.1 sb.2.2.1 attack sa.2.2.2 sb.2.2.2 dir
  { events := sa.1 ++ [Event.sleep 5] ++ sb.1 ++ [Event.sleep 5] ++ oD.events,
    fs := oD.fs, k := oD.k, dir := dir,
    evidence_file := sa.2.2.2, counter_req_file := sb.2.2.2 }

/-- The main loop over the (possibly filtered) attacks list (source lines
831-892).  After each attack that is not equal (as a record, Python dict
inequality `attack != attacks[-1]`) to the last attack of the list, a
5-second sleep is inserted. -/
def processAttacks (args : Args) (beh : AgentBehavior) (strategy_dir : String)
    (last : Attack) : List Attack → FS → Nat → List Event × FS × Nat
  | [], fs, k => ([], fs, k)
  | a :: rest, fs, k =>
    let o := processAttack args beh fs k strategy_dir a
    let r := processAttacks args beh strategy_dir last rest o.fs o.k
    (o.events ++ (if a = last then [] else [Event.sleep 5]) ++ r.1, r.2.1, r.2.2)

/-- `attacks` after the optional `--attack` filter (source lines 811-812):
`[a for a in attacks if a["id"] == args.attack]`. -/
def filteredAttacks (argAttack : Option String) (attacks : List Attack) : List Attack :=
  match argAttack with
  | some aid => attacks.filter (fun a => a.id = aid)
  | none => attacks

/-- `main` from the point where `ATTACKS.json` is settled (source lines
796-923): exists-check on the attacks file, load, empty-check, optional
`--attack` filter with its not-found check, the per-attack loop, the
5-second sleep before Phase E, and Phase E.  `evs0` and `k0` carry the
events and invocation count of an optional preceding Phase 0. -/
def mainWithAttacks (args : Args) (w : World) (strategy_dir : String)
    (evs0 : List Event) (k0 : Nat) (st : AttacksFileState) : RunResult :=
  if !(attacksFileExists st) then
    { events := evs0, exitCode := 1, fs := w.fs, attacks_file := st }
  else
    let attacks := loadedAttacks st
    if attacks.isEmpty then
      { events := evs0, exitCode := 1, fs := w.fs, attacks_file := st }
    else
      let attacks2 := filteredAttacks args.attack attacks
      if args.attack.isSome && attacks2.isEmpty then
        { events := evs0, exitCode := 1, fs := w.fs, attacks_file := st }
      else
        let last := attacks2.getLastD { id := "", name := "" }
        let lp := processAttacks args w.behavior strategy_dir last attacks2 w.fs k0
        let pe := phase_e_gap_analysis w.behavior lp.2.1 lp.2.2 strategy_dir
        { events := evs0 ++ lp.1 ++ [Event.sleep 5] ++ pe.events,
          exitCode := 0, fs := pe.fs, attacks_file := st }

/-- `main` (source lines 701-923): path validation (`exit 1` on missing
case folder or workspace), optional Phase 0 (`exit 1` when it returns
`None`), then `mainWithAttacks`. -/
def main (args : Args) (w : World) : RunResult :=
  let sdir := strategyDir args
  if !w.case_folder_exists then
    { events := [], exitCode := 1, fs := w.fs, attacks_file := w.attacks_file }
  else if !w.workspace_exists then
    { events := [], exitCode := 1, fs := w.fs, attacks_file := w.attacks_file }
  else if args.auto_detect then
    let p0 := phase_0_detect_attacks w.behavior 0 sdir
    match p0.result with
    | none => { events := p0.events, exitCode := 1, fs := w.fs, attacks_file := p0.state }
    | some _ => mainWithAttacks args w sdir p0.events p0.k p0.state
  else
    mainWithAttacks args w sdir [] 0 w.attacks_file

/-- The agent invocations of a trace (sleeps dropped). -/
def agentCallsOnly (evs : List Event) : List Event :=
  evs.filter (fun e => match e with
    | .agentCall _ _ => true
    | .sleep _ => false)

/-- The `ATTACKS.json` state `main` ends up consulting: the Phase 0
output under `--auto-detect`, the pre-existing file otherwise. -/
def effectiveState (args : Args) (w : World) : AttacksFileState :=
  if args.auto_detect then w.behavior.detect else w.attacks_file

/-- The condition under which `main` calls `sys.exit(1)`: missing case
folder, missing workspace, effective attacks file missing or loading to
an empty attacks list, or a supplied `--attack` filter matching no
attack. -/
def exit1Cond (args : Args) (w : World) : Bool :=
  !w.case_folder_exists || !w.workspace_exists ||
    (!(attacksFileExists (effectiveState args w)) ||
      (loadedAttacks (effectiveState args w)).isEmpty ||
      (args.attack.isSome &&
        (filteredAttacks args.attack (loadedAttacks (effectiveState args w))).isEmpty))

/-- The three agent invocations the main loop issues for one attack when
no skip flag suppresses a phase, in order: Phase A, Phase B, Phase D. -/
def perAttackCalls (strategy_dir : String) (a : Attack) : List Event :=
  [Event.agentCall ("Phase_A_Evidence_" ++ a.id)
      (attackDir strategy_dir a ++ "/EVIDENCE_ANALYSIS.json"),
   Event.agentCall ("Phase_B_Counter_Req_" ++ a.id)
      (attackDir strategy_dir a ++ "/counter_requirements.json"),
   Event.agentCall ("Phase_D_Viability_" ++ a.id)
      (attackDir strategy_dir a ++ "/analysis.md")]

/-- The full event trace of one attack of the main loop when no skip flag
suppresses a phase: Phase A, sleep 5, Phase B, sleep 5, Phase D. -/
def perAttackTrace (strategy_dir : String) (a : Attack) : List Event :=
  [Event.agentCall ("Phase_A_Evidence_" ++ a.id)
      (attackDir strategy_dir a ++ "/EVIDENCE_ANALYSIS.json"),
   Event.sleep 5,
   Event.agentCall ("Phase_B_Counter_Req_" ++ a.id)
      (attackDir strategy_dir a ++ "/counter_requirements.json"),
   Event.sleep 5,
   Event.agentCall ("Phase_D_Viability_" ++ a.id)
      (attackDir strategy_dir a ++ "/analysis.md")]

/-! ### Helper lemmas -/

theorem append_left_cancel (s : String) {a b : String} (h : s ++ a = s ++ b) : a = b := by
  have hd : (s ++ a).data = (s ++ b).data := congrArg String.data h
  have h1 : (s ++ a).data = s.data ++ a.data := rfl
  have h2 : (s ++ b).data = s.data ++ b.data := rfl
  rw [h1, h2] at hd
  have h3 := List.append_cancel_left hd
  cases a with
  | mk da => cases b with
    | mk db => exact congrArg String.mk h3

theorem append_left_ne (s : String) {a b : String} (h : a ≠ b) : s ++ a ≠ s ++ b :=
  fun he => h (append_left_cancel s he)

theorem ne_of_length_ne {a b : String} (h : a.length ≠ b.length) : a ≠ b :=
  fun he => h (congrArg String.length he)

theorem phase_0_result_none_iff (beh : AgentBehavior) (k : Nat) (sdir : String) :
    (phase_0_detect_attacks beh k sdir).result = none ↔
      (beh.detect = .absent ∨ beh.detect = .unparseable ∨ beh.detect = .parsed []) := by
  cases h : beh.detect with
  | absent => simp [phase_0_detect_attacks, h]
  | unparseable => simp [phase_0_detect_attacks, h]
  | parsed l =>
    cases l with
    | nil => simp [phase_0_detect_attacks, h]
    | cons x xs => simp [phase_0_detect_attacks, h]

theorem phase_0_result_some (beh : AgentBehavior) (k : Nat) (sdir : String)
    (h : (phase_0_detect_attacks beh k sdir).result ≠ none) :
    (phase_0_detect_attacks beh k sdir).result = some (sdir ++ "/ATTACKS.json") := by
  cases hd : beh.detect with
  | absent => exact absurd (by simp [phase_0_detect_attacks, hd]) h
  | unparseable => exact absurd (by simp [phase_0_detect_attacks, hd]) h
  | parsed l =>
    cases l with
    | nil => exact absurd (by simp [phase_0_detect_attacks, hd]) h
    | cons x xs => simp [phase_0_detect_attacks, hd]

theorem processAttack_events_noskip (args : Args) (beh : AgentBehavior) (fs : FS) (k : Nat)
    (sdir : String) (a : Attack)
    (h1 : args.skip_evidence = false) (h2 : args.skip_counter_req = false) :
    (processAttack args beh fs k sdir a).events = perAttackTrace sdir a := by
  simp [processAttack, h1, h2, phase_a_evidence_analysis, phase_b_counter_requirements,
    phase_d_viability_analysis, run_agent, perAttackTrace]

theorem processAttacks_events_noskip (args : Args) (beh : AgentBehavior) (sdir : String)
    (last : Attack) (h1 : args.skip_evidence = false) (h2 : args.skip_counter_req = false) :
    ∀ (l : List Attack) (fs : FS) (k : Nat),
      (processAttacks args beh sdir last l fs k).1 =
        (l.map (fun a => perAttackTrace sdir a ++
          if a = last then [] else [Event.sleep 5])).flatten
  | [], _, _ => by simp [processAttacks]
  | a :: rest, fs, k => by
    have ih := processAttacks_events_noskip args beh sdir last h1 h2 rest
      (processAttack args beh fs k sdir a).fs (processAttack args beh fs k sdir a).k
    have hA := processAttack_events_noskip args beh fs k sdir a h1 h2
    simp [processAttacks, hA, ih, List.append_assoc]

theorem agentCallsOnly_append (xs ys : List Event) :
    agentCallsOnly (xs ++ ys) = agentCallsOnly xs ++ agentCallsOnly ys := by
  simp [agentCallsOnly, List.filter_append]

theorem agentCallsOnly_flatten (l : List (List Event)) :
    agentCallsOnly l.flatten = (l.map agentCallsOnly).flatten := by
  induction l with
  | nil => rfl
  | cons x xs ih => simp [List.flatten_cons, agentCallsOnly_append, ih]

theorem agentCallsOnly_perAttackTrace (sdir : String) (a : Attack) :
    agentCallsOnly (perAttackTrace sdir a) = perAttackCalls sdir a := by
  simp [agentCallsOnly, perAttackTrace, perAttackCalls, List.filter]

theorem main_manual (args : Args) (w : World) (had : args.auto_detect = false)
    (hcf : w.case_folder_exists = true) (hws : w.workspace_exists = true) :
    main args w = mainWithAttacks args w (strategyDir args) [] 0 w.attacks_file := by
  simp [main, had, hcf, hws]

theorem main_auto (args : Args) (w : World) (had : args.auto_detect = true)
    (hcf : w.case_folder_exists = true) (hws : w.workspace_exists = true)
    (hres : (phase_0_detect_attacks w.behavior 0 (strategyDir args)).result ≠ none) :
    main args w = mainWithAttacks args w (strategyDir args)
      [Event.agentCall ("Phase_0_Attack_Detection") (strategyDir args ++ "/ATTACKS.json")]
      1 w.behavior.detect := by
  have h := phase_0_result_some w.behavior 0 (strategyDir args) hres
  simp only [main, had, hcf, hws]
  simp only [h]
  simp [phase_0_detect_attacks]

theorem main_auto_fail (args : Args) (w : World) (had : args.auto_detect = true)
    (hcf : w.case_folder_exists = true) (hws : w.workspace_exists = true)
    (hres : (phase_0_detect_attacks w.behavior 0 (strategyDir args)).result = none) :
    main args w =
      { events := [Event.agentCall ("Phase_0_Attack_Detection")
          (strategyDir args ++ "/ATTACKS.json")],
        exitCode := 1, fs := w.fs, attacks_file := w.behavior.detect } := by
  simp only [main, had, hcf, hws]
  simp only [hres]
  simp [phase_0_detect_attacks]

theorem loadedAttacks_nonempty_exists {st : AttacksFileState}
    (hne : (loadedAttacks st).isEmpty = false) : attacksFileExists st = true := by
  cases st with
  | absent => simp [loadedAttacks] at hne
  | unparseable => simp [attacksFileExists]
  | parsed l => simp [attacksFileExists]

theorem mainWithAttacks_run (args : Args) (w : World) (sdir : String)
    (evs0 : List Event) (k0 : Nat) (st : AttacksFileState)
    (hne : (loadedAttacks st).isEmpty = false)
    (hfil : (args.attack.isSome &&
      (filteredAttacks args.attack (loadedAttacks st)).isEmpty) = false) :
    mainWithAttacks args w sdir evs0 k0 st =
      { events := evs0 ++
          (processAttacks args w.behavior sdir
            ((filteredAttacks args.attack (loadedAttacks st)).getLastD { id := "", name := "" })
            (filteredAttacks args.attack (loadedAttacks st)) w.fs k0).1 ++
          [Event.sleep 5] ++
          [Event.agentCall ("Phase_E_Gap_Analysis") (sdir ++ "/GAP_ANALYSIS.md")],
        exitCode := 0,
        fs := (phase_e_gap_analysis w.behavior
          (processAttacks args w.behavior sdir
            ((filteredAttacks args.attack (loadedAttacks st)).getLastD { id := "", name := "" })
            (filteredAttacks args.attack (loadedAttacks st)) w.fs k0).2.1
          (processAttacks args w.behavior sdir
            ((filteredAttacks args.attack (loadedAttacks st)).getLastD { id := "", name := "" })
            (filteredAttacks args.attack (loadedAttacks st)) w.fs k0).2.2 sdir).fs,
        attacks_file := st } := by
  have hex := loadedAttacks_nonempty_exists hne
  simp [mainWithAttacks, hex, hne, hfil, phase_e_gap_analysis, run_agent]

theorem mainWithAttacks_exitCode (args : Args) (w : World) (sdir : String)
    (evs0 : List Event) (k0 : Nat) (st : AttacksFileState) :
    (mainWithAttacks args w sdir evs0 k0 st).exitCode =
      if (!(attacksFileExists st) || (loadedAttacks st).isEmpty ||
          (args.attack.isSome &&
            (filteredAttacks args.attack (loadedAttacks st)).isEmpty)) then 1 else 0 := by
  cases h1 : attacksFileExists st with
  | false => simp [mainWithAttacks, h1]
  | true =>
    cases h2 : (loadedAttacks st).isEmpty with
    | true => simp [mainWithAttacks, h1, h2]
    | false =>
      cases h3 : args.attack.isSome &&
          (filteredAttacks args.attack (loadedAttacks st)).isEmpty with
      | true => simp [mainWithAttacks, h1, h2, h3]
      | false => simp [mainWithAttacks, h1, h2, h3]

theorem mainWithAttacks_fail (args : Args) (w : World) (sdir : String)
    (evs0 : List Event) (k0 : Nat) (st : AttacksFileState)
    (h : (!(attacksFileExists st) || (loadedAttacks st).isEmpty ||
        (args.attack.isSome &&
          (filteredAttacks args.attack (loadedAttacks st)).isEmpty)) = true) :
    mainWithAttacks args w sdir evs0 k0 st =
      { events := evs0, exitCode := 1, fs := w.fs, attacks_file := st } := by
  cases h1 : attacksFileExists st with
  | false => simp [mainWithAttacks, h1]
  | true =>
    cases h2 : (loadedAttacks st).isEmpty with
    | true => simp [mainWithAttacks, h1, h2]
    | false =>
      have h3 : (args.attack.isSome &&
          (filteredAttacks args.attack (loadedAttacks st)).isEmpty) = true := by
        simpa [h1, h2] using h
      simp [mainWithAttacks, h1, h2, h3]

/-! ### Concrete inputs used by witnesses and counterexamples -/

/-- An agent that never creates any file and never detects anything. -/
def noAgent : AgentBehavior := { creates := fun _ => none }

/-- The empty filesystem. -/
def emptyFS : FS := fun _ => none

def atk001 : Attack := { id := "001", name := "Standing" }

def atk002 : Attack := { id := "002", name := "Damages" }

/-- An agent whose Phase 0 invocation writes a well-formed `ATTACKS.json`
containing exactly `atk001`. -/
def detect001 : AgentBehavior := { creates := fun _ => none, detect := .parsed [atk001] }

def relayArgs : Args := { case_folder := "c", workspace := "w", strategy := "s" }

def filterArgs : Args :=
  { case_folder := "c", workspace := "w", strategy := "s", attack := some "999" }

def filterAutoArgs : Args := { filterArgs with auto_detect := true }

def detectArgs : Args :=
  { case_folder := "c", workspace := "w", strategy := "s", auto_detect := true }

def worldOne : World :=
  { case_folder_exists := true, workspace_exists := true,
    attacks_file := .parsed [atk001], fs := emptyFS, behavior := noAgent }

def worldTwo : World :=
  { case_folder_exists := true, workspace_exists := true,
    attacks_file := .parsed [atk001, atk002], fs := emptyFS, behavior := noAgent }

def worldDup : World :=
  { case_folder_exists := true, workspace_exists := true,
    attacks_file := .parsed [atk001, atk001], fs := emptyFS, behavior := noAgent }

def worldAuto1 : World :=
  { case_folder_exists := true, workspace_exists := true,
    attacks_file := .absent, fs := emptyFS, behavior := detect001 }

def worldDetectFail : World :=
  { case_folder_exists := true, workspace_exists := true,
    attacks_file := .absent, fs := emptyFS, behavior := noAgent }

theorem agentCallsOnly_sleep (n : Nat) : agentCallsOnly [Event.sleep n] = [] := rfl

theorem agentCallsOnly_one_call (n f : String) :
    agentCallsOnly [Event.agentCall n f] = [Event.agentCall n f] := rfl

theorem agentCallsOnly_ite_sleep (c : Prop) [Decidable c] :
    agentCallsOnly (if c then [] else [Event.sleep 5]) = [] := by
  split <;> rfl

theorem agentCallsOnly_perAttack_ite (sdir : String) (a last : Attack) :
    agentCallsOnly (perAttackTrace sdir a ++ if a = last then [] else [Event.sleep 5]) =
      perAttackCalls sdir a := by
  by_cases h : a = last
  · simp [h, agentCallsOnly_append, agentCallsOnly_perAttackTrace]
  · simp [h, agentCallsOnly_append, agentCallsOnly_perAttackTrace, agentCallsOnly_sleep]

theorem dcall_mem_processAttack (args : Args) (beh : AgentBehavior) (fs : FS) (k : Nat)
    (sdir : String) (a : Attack) :
    Event.agentCall ("Phase_D_Viability_" ++ a.id) (attackDir sdir a ++ "/analysis.md")
      ∈ (processAttack args beh fs k sdir a).events := by
  simp [processAttack, phase_d_viability_analysis, run_agent, List.mem_append]

theorem dcall_mem_processAttacks (args : Args) (beh : AgentBehavior) (sdir : String)
    (last : Attack) :
    ∀ (l : List Attack) (fs : FS) (k : Nat) (a : Attack), a ∈ l →
      Event.agentCall ("Phase_D_Viability_" ++ a.id) (attackDir sdir a ++ "/analysis.md")
        ∈ (processAttacks args beh sdir last l fs k).1
  | [], _, _, a, h => absurd h (List.not_mem_nil a)
  | b :: rest, fs, k, a, h => by
    rcases List.mem_cons.mp h with rfl | h2
    · show _ ∈ (processAttacks args beh sdir last (a :: rest) fs k).1
      simp only [processAttacks]
      exact List.mem_append_left _ (List.mem_append_left _
        (dcall_mem_processAttack args beh fs k sdir a))
    · show _ ∈ (processAttacks args beh sdir last (b :: rest) fs k).1
      simp only [processAttacks]
      exact List.mem_append_right _
        (dcall_mem_processAttacks args beh sdir last rest _ _ a h2)

theorem run_agent_fs_ne (beh : AgentBehavior) (fs : FS) (k : Nat)
    (phase_name output_file p : String) (h : p ≠ output_file) :
    (run_agent beh fs k phase_name output_file).2.1 p = fs p := by
  cases hc : beh.creates k with
  | none => simp [run_agent, hc]
  | some v => simp [run_agent, hc, h]

theorem phase_names_ne_AB (x : String) :
    ("Phase_A_Evidence_" ++ x) ≠ ("Phase_B_Counter_Req_" ++ x) := by
  apply ne_of_length_ne
  rw [String.length_append, String.length_append]
  have h1 : ("Phase_A_Evidence_" : String).length = 17 := rfl
  have h2 : ("Phase_B_Counter_Req_" : String).length = 20 := rfl
  omega

theorem phase_names_ne_AD (x : String) :
    ("Phase_A_Evidence_" ++ x) ≠ ("Phase_D_Viability_" ++ x) := by
  apply ne_of_length_ne
  rw [String.length_append, String.length_append]
  have h1 : ("Phase_A_Evidence_" : String).length = 17 := rfl
  have h2 : ("Phase_D_Viability_" : String).length = 18 := rfl
  omega

/-! ### Claim theorems -/

/-- C10: for every input, the phase functions for Phases A, B, D and E
return the derived output-file path and never `None` (a missing output
file is only logged); only `phase_0_detect_attacks` signals failure by
returning `None`, which it does exactly when the output file is missing,
unparseable, or has no attacks. -/
theorem phase_functions_always_return_path (beh : AgentBehavior) (fs : FS) (k : Nat)
    (a : Attack) (e c : Option String) (dir sdir : String) :
    (phase_a_evidence_analysis beh fs k a dir).result =
      some (dir ++ "/EVIDENCE_ANALYSIS.json") ∧
    (phase_b_counter_requirements beh fs k a e dir).result =
      some (dir ++ "/counter_requirements.json") ∧
    (phase_d_viability_analysis beh fs k a e c dir).result =
      some (dir ++ "/analysis.md") ∧
    (phase_e_gap_analysis beh fs k sdir).result =
      some (sdir ++ "/GAP_ANALYSIS.md") ∧
    ((phase_0_detect_attacks beh k sdir).result = none ↔
      (beh.detect = .absent ∨ beh.detect = .unparseable ∨ beh.detect = .parsed [])) :=
  ⟨rfl, rfl, rfl, rfl, phase_0_result_none_iff beh k sdir⟩

/-- C8: the task string Phase D passes to the agent contains the mandated
ViabilityReport header verbatim: the line `# Analysis: {attack name}`,
followed by the generation-timestamp line and the `**Attack ID**` line
carrying the attack id. -/
theorem phase_d_task_mandates_header (beh : AgentBehavior) (fs : FS) (k : Nat)
    (a : Attack) (e c : Option String) (dir : String) :
    ∃ pre post : String,
      (phase_d_viability_analysis beh fs k a e c dir).task =
        some (pre ++ ("# Analysis: " ++ a.name ++ "\n\n**Generated**: " ++ beh.now ++
          "\n**Attack ID**: " ++ a.id) ++ post) := by
  refine ⟨"Analyze the rebuttal strength for Attack " ++ a.id ++ ": " ++ a.name ++
    "\n\nYour analysis must include:\n\n1. REBUTTAL STRENGTH SCORE\n   - STRONG: All counter-requirements proven, evidence gaps identified, burden analysis favorable\n   - MODERATE: Most counter-requirements supported, some gaps in our evidence\n   - WEAK: Critical counter-requirements unproven\n   - FATAL: Cannot rebut this attack\n\n2. COUNTER-REQUIREMENT SUMMARY TABLE\n   For each CR: Status (✅/⚠️/❌) and evidence strength\n\n3. THE CRITICAL DISTINCTIONS\n   How do we distinguish our position from what they claim?\n   (e.g., \"This is contract authenticity, not \x27show me the note\x27\")\n\n4. ADVERSARIAL CHECK\n   Role-play as opposing counsel responding to our rebuttal.\n   - What will they say?\n   - How do we handle their surrebuttal?\n\n5. EVIDENCE MAPPED\n   List all evidence supporting our rebuttal, organized by category.\n\n6. GAPS AND RECOMMENDATIONS\n   - What\x27s still missing?\n   - What discovery would help?\n\nOUTPUT: Write a MARKDOWN file to " ++
    (dir ++ "/analysis.md") ++ ". Start the file with this header:\n\n",
    "\n\n---\n\nThen write the full analysis with clear sections.", ?_⟩
  simp only [phase_d_viability_analysis, phase_d_task, String.append_assoc]

/-- C5 (counterexample): the claim derives `attacks/002_standing_defense/`
for the attack `{id:"002", name:"Standing Defense!!"}`, but the slug only
lowercases and replaces spaces and hyphens; it does not strip `!!`, so
the derived directory is `attacks/002_standing_defense!!/`. -/
theorem slug_keeps_punctuation_counterexample :
    (processAttack relayArgs noAgent emptyFS 0 "S"
        { id := "002", name := "Standing Defense!!" }).dir =
      "S/attacks/002_standing_defense!!" ∧
    ("S/attacks/002_standing_defense!!" : String) ≠ "S/attacks/002_standing_defense" := by
  constructor <;> decide

/-- C5 (amended): the per-attack artifact directory is deterministically
derived as `attacks/{id}_{slug(name)}` where the slug lowercases the
name, replaces spaces and hyphens with underscores, truncates to 30
characters, and leaves other punctuation as-is; for
`{id:"002", name:"Standing Defense!!"}` the slug is
`standing_defense!!`. -/
theorem attack_dir_derivation (args : Args) (beh : AgentBehavior) (fs : FS) (k : Nat)
    (sdir : String) (a : Attack) :
    (processAttack args beh fs k sdir a).dir =
      sdir ++ "/attacks/" ++ a.id ++ "_" ++ slug a.name ∧
    (∀ name : String, (slug name).length ≤ 30) ∧
    slug "Standing Defense!!" = "standing_defense!!" := by
  refine ⟨?_, ?_, by decide⟩
  · simp [processAttack, attackDir, attackDirName, String.append_assoc]
  · intro name
    show (List.take 30 _).length ≤ 30
    simp [List.length_take]

/-- C3 (counterexample): the claim lists the exit-1 conditions exhaustively
(missing case folder, missing workspace, missing or empty attacks file,
failed auto-detection) and asserts exit code 0 in every other run; but a
run in which none of those conditions holds while the supplied `--attack`
filter matches no attack also exits with code 1. -/
theorem exit_code_attack_filter_counterexample :
    (main filterArgs worldOne).exitCode = 1 ∧
    worldOne.case_folder_exists = true ∧
    worldOne.workspace_exists = true ∧
    attacksFileExists worldOne.attacks_file = true ∧
    (loadedAttacks worldOne.attacks_file).isEmpty = false ∧
    filterArgs.auto_detect = false := by
  refine ⟨by decide, rfl, rfl, rfl, by decide, rfl⟩

/-- C3 (amended): the process exits with code 1 exactly when the case
folder is missing, the workspace is missing, the effective attacks file
(the detection output under `--auto-detect`, the pre-existing
`ATTACKS.json` otherwise) is missing or loads to an empty attacks list,
or a supplied `--attack` filter matches no attack; in every other run it
exits with code 0 — in particular, no individual Phase A/B/D/E failure
produces a non-zero exit. -/
theorem exit_code_one_iff_validation_failure (args : Args) (w : World) :
    (main args w).exitCode = if exit1Cond args w then 1 else 0 := by
  cases hcf : w.case_folder_exists with
  | false => simp [main, exit1Cond, hcf]
  | true =>
    cases hws : w.workspace_exists with
    | false => simp [main, exit1Cond, hcf, hws]
    | true =>
      cases had : args.auto_detect with
      | false =>
        rw [main_manual args w had hcf hws, mainWithAttacks_exitCode]
        simp [exit1Cond, effectiveState, hcf, hws, had]
      | true =>
        by_cases hres : (phase_0_detect_attacks w.behavior 0 (strategyDir args)).result = none
        · rw [main_auto_fail args w had hcf hws hres]
          have hfail := (phase_0_result_none_iff w.behavior 0 (strategyDir args)).mp hres
          have hc : exit1Cond args w = true := by
            rcases hfail with h | h | h <;>
              simp [exit1Cond, effectiveState, had, hcf, hws, h,
                attacksFileExists, loadedAttacks]
          simp [hc]
        · rw [main_auto args w had hcf hws hres, mainWithAttacks_exitCode]
          simp [exit1Cond, effectiveState, hcf, hws, had]

/-- C6 (counterexample): the claim says an unmatched `--attack` filter
aborts with zero agent invocations; but when `--auto-detect` is also
supplied, the Phase 0 detection invocation has already happened by the
time the filter is found to match nothing, so the aborting run performed
one agent invocation. -/
theorem attack_filter_autodetect_invocation_counterexample :
    (main filterAutoArgs worldAuto1).exitCode = 1 ∧
    agentCallsOnly (main filterAutoArgs worldAuto1).events =
      [Event.agentCall ("Phase_0_Attack_Detection")
        ("c/workspaces/w/strategies/s/ATTACKS.json")] := by
  constructor <;> decide

/-- C6 (amended): if `--attack <id>` is supplied and no attack with that
id exists in the loaded attacks list, the run aborts with exit code 1,
having performed zero agent invocations when `--auto-detect` is not
supplied, and exactly the single Phase 0 detection invocation when it
is. -/
theorem attack_filter_not_found_aborts (args : Args) (w : World) (aid : String)
    (hcf : w.case_folder_exists = true) (hws : w.workspace_exists = true)
    (ha : args.attack = some aid)
    (hnone : ∀ a ∈ loadedAttacks (effectiveState args w), a.id ≠ aid) :
    (main args w).exitCode = 1 ∧
    agentCallsOnly (main args w).events =
      (if args.auto_detect then
        [Event.agentCall ("Phase_0_Attack_Detection") (strategyDir args ++ "/ATTACKS.json")]
       else []) := by
  have hfe : (filteredAttacks args.attack (loadedAttacks (effectiveState args w))).isEmpty
      = true := by
    simp only [filteredAttacks, ha, List.isEmpty_iff, List.filter_eq_nil_iff]
    intro a hmem
    simpa using hnone a hmem
  cases had : args.auto_detect with
  | false =>
    have hfe' : (filteredAttacks (some aid) (loadedAttacks w.attacks_file)).isEmpty
        = true := by
      rw [← ha]
      simpa [effectiveState, had] using hfe
    rw [main_manual args w had hcf hws,
      mainWithAttacks_fail args w (strategyDir args) [] 0 w.attacks_file
        (by simp [ha, hfe'])]
    simp [agentCallsOnly, had]
  | true =>
    by_cases hres : (phase_0_detect_attacks w.behavior 0 (strategyDir args)).result = none
    · rw [main_auto_fail args w had hcf hws hres]
      simp [agentCallsOnly, had]
    · have hfe' : (filteredAttacks (some aid) (loadedAttacks w.behavior.detect)).isEmpty
          = true := by
        rw [← ha]
        simpa [effectiveState, had] using hfe
      rw [main_auto args w had hcf hws hres,
        mainWithAttacks_fail args w (strategyDir args) _ 1 w.behavior.detect
          (by simp [ha, hfe'])]
      simp [agentCallsOnly, had]

theorem attack_filter_not_found_aborts_witness :
    (main filterArgs worldOne).exitCode = 1 ∧
    agentCallsOnly (main filterArgs worldOne).events =
      (if filterArgs.auto_detect then
        [Event.agentCall ("Phase_0_Attack_Detection")
          (strategyDir filterArgs ++ "/ATTACKS.json")]
       else []) :=
  attack_filter_not_found_aborts filterArgs worldOne "999" rfl rfl rfl (by decide)

/-- C2: under `--auto-detect`, `phase_0_detect_attacks` returns `None`
exactly when the written `ATTACKS.json` is missing, unparseable, or has
no attacks; in that case the run exits with code 1 having performed only
the Phase 0 invocation (no per-attack phase runs); otherwise the
function returns the path of the written `ATTACKS.json`. -/
theorem phase0_postcondition_gates_run (args : Args) (w : World)
    (had : args.auto_detect = true)
    (hcf : w.case_folder_exists = true) (hws : w.workspace_exists = true) :
    ((phase_0_detect_attacks w.behavior 0 (strategyDir args)).result = none ↔
      (w.behavior.detect = .absent ∨ w.behavior.detect = .unparseable ∨
        w.behavior.detect = .parsed [])) ∧
    ((phase_0_detect_attacks w.behavior 0 (strategyDir args)).result = none →
      (main args w).exitCode = 1 ∧
      (main args w).events =
        [Event.agentCall ("Phase_0_Attack_Detection")
          (strategyDir args ++ "/ATTACKS.json")]) ∧
    ((phase_0_detect_attacks w.behavior 0 (strategyDir args)).result ≠ none →
      (phase_0_detect_attacks w.behavior 0 (strategyDir args)).result =
        some (strategyDir args ++ "/ATTACKS.json")) := by
  refine ⟨phase_0_result_none_iff w.behavior 0 (strategyDir args), ?_, ?_⟩
  · intro h
    rw [main_auto_fail args w had hcf hws h]
    exact ⟨rfl, rfl⟩
  · exact phase_0_result_some w.behavior 0 (strategyDir args)

theorem phase0_postcondition_gates_run_witness :
    ((phase_0_detect_attacks worldDetectFail.behavior 0 (strategyDir detectArgs)).result
        = none ↔
      (worldDetectFail.behavior.detect = .absent ∨
        worldDetectFail.behavior.detect = .unparseable ∨
        worldDetectFail.behavior.detect = .parsed [])) ∧
    ((phase_0_detect_attacks worldDetectFail.behavior 0 (strategyDir detectArgs)).result
        = none →
      (main detectArgs worldDetectFail).exitCode = 1 ∧
      (main detectArgs worldDetectFail).events =
        [Event.agentCall ("Phase_0_Attack_Detection")
          (strategyDir detectArgs ++ "/ATTACKS.json")]) ∧
    ((phase_0_detect_attacks worldDetectFail.behavior 0 (strategyDir detectArgs)).result
        ≠ none →
      (phase_0_detect_attacks worldDetectFail.behavior 0 (strategyDir detectArgs)).result =
        some (strategyDir detectArgs ++ "/ATTACKS.json")) :=
  phase0_postcondition_gates_run detectArgs worldDetectFail rfl rfl rfl

/-- C1: for every valid `ATTACKS.json` with N >= 1 attacks and no
`--attack` filter (default flags), the main loop issues the per-attack
invocation sequence Phase A, Phase B, Phase D exactly once per attack in
list order, and the aggregate Phase E invocation exactly once, after all
attacks. -/
theorem relay_invokes_each_attack_once_and_aggregate_once (args : Args) (w : World)
    (l : List Attack)
    (hcf : w.case_folder_exists = true) (hws : w.workspace_exists = true)
    (had : args.auto_detect = false) (hatt : args.attack = none)
    (h1 : args.skip_evidence = false) (h2 : args.skip_counter_req = false)
    (hst : w.attacks_file = .parsed l) (hne : l ≠ []) :
    agentCallsOnly (main args w).events =
      (l.map (fun a => perAttackCalls (strategyDir args) a)).flatten ++
      [Event.agentCall ("Phase_E_Gap_Analysis") (strategyDir args ++ "/GAP_ANALYSIS.md")] := by
  have hne' : (loadedAttacks w.attacks_file).isEmpty = false := by
    rw [hst]
    cases l with
    | nil => exact absurd rfl hne
    | cons x xs => rfl
  have hfil : (args.attack.isSome &&
      (filteredAttacks args.attack (loadedAttacks w.attacks_file)).isEmpty) = false := by
    simp [hatt]
  rw [main_manual args w had hcf hws,
    mainWithAttacks_run args w (strategyDir args) [] 0 w.attacks_file hne' hfil]
  rw [show (filteredAttacks args.attack (loadedAttacks w.attacks_file)) = l by
    simp [hatt, filteredAttacks, hst, loadedAttacks]]
  rw [processAttacks_events_noskip args w.behavior (strategyDir args) _ h1 h2]
  simp only [List.nil_append, agentCallsOnly_append, agentCallsOnly_flatten,
    agentCallsOnly_sleep, agentCallsOnly_one_call, List.map_map, Function.comp_def,
    agentCallsOnly_perAttackTrace, agentCallsOnly_ite_sleep, List.append_nil]

/-- C1 witness at a concrete two-attack run. -/
theorem relay_invokes_each_attack_once_and_aggregate_once_witness :
    agentCallsOnly (main relayArgs worldTwo).events =
      ([atk001, atk002].map (fun a => perAttackCalls (strategyDir relayArgs) a)).flatten ++
      [Event.agentCall ("Phase_E_Gap_Analysis")
        (strategyDir relayArgs ++ "/GAP_ANALYSIS.md")] :=
  relay_invokes_each_attack_once_and_aggregate_once relayArgs worldTwo [atk001, atk002]
    rfl rfl rfl rfl rfl rfl rfl (by decide)

/-- C4: once the run has passed validation (existing case folder and
workspace, a non-empty loaded attacks list, a filter that matched, and a
successful Phase 0 when `--auto-detect` is on), the orchestrator reaches
exit code 0 for EVERY agent behaviour: the trace always ends with the
Phase E invocation, and every processed attack gets its Phase D
invocation, regardless of whether any agent call created its output
file. -/
theorem run_progresses_unconditionally (args : Args) (w : World)
    (hcf : w.case_folder_exists = true) (hws : w.workspace_exists = true)
    (hp0 : args.auto_detect = true →
      (phase_0_detect_attacks w.behavior 0 (strategyDir args)).result ≠ none)
    (hne : (loadedAttacks (effectiveState args w)).isEmpty = false)
    (hfil : (args.attack.isSome &&
      (filteredAttacks args.attack (loadedAttacks (effectiveState args w))).isEmpty)
        = false) :
    (main args w).exitCode = 0 ∧
    (∃ pre, (main args w).events = pre ++
      [Event.sleep 5,
       Event.agentCall ("Phase_E_Gap_Analysis") (strategyDir args ++ "/GAP_ANALYSIS.md")]) ∧
    (∀ a ∈ filteredAttacks args.attack (loadedAttacks (effectiveState args w)),
      Event.agentCall ("Phase_D_Viability_" ++ a.id)
        (attackDir (strategyDir args) a ++ "/analysis.md") ∈ (main args w).events) := by
  cases had : args.auto_detect with
  | false =>
    have hne' : (loadedAttacks w.attacks_file).isEmpty = false := by
      simpa [effectiveState, had] using hne
    have hfil' : (args.attack.isSome &&
        (filteredAttacks args.attack (loadedAttacks w.attacks_file)).isEmpty) = false := by
      simpa [effectiveState, had] using hfil
    rw [main_manual args w had hcf hws,
      mainWithAttacks_run args w (strategyDir args) [] 0 w.attacks_file hne' hfil']
    refine ⟨rfl, ⟨[] ++ (processAttacks args w.behavior (strategyDir args)
      ((filteredAttacks args.attack (loadedAttacks w.attacks_file)).getLastD
        { id := "", name := "" })
      (filteredAttacks args.attack (loadedAttacks w.attacks_file)) w.fs 0).1,
      by simp⟩, ?_⟩
    intro a ha2
    have ha3 : a ∈ filteredAttacks args.attack (loadedAttacks w.attacks_file) := by
      simpa [effectiveState, had] using ha2
    exact List.mem_append_left _ (List.mem_append_left _ (List.mem_append_right _
      (dcall_mem_processAttacks args w.behavior (strategyDir args) _ _ _ _ a ha3)))
  | true =>
    have hres := hp0 had
    have hne' : (loadedAttacks w.behavior.detect).isEmpty = false := by
      simpa [effectiveState, had] using hne
    have hfil' : (args.attack.isSome &&
        (filteredAttacks args.attack (loadedAttacks w.behavior.detect)).isEmpty)
          = false := by
      simpa [effectiveState, had] using hfil
    rw [main_auto args w had hcf hws hres,
      mainWithAttacks_run args w (strategyDir args) _ 1 w.behavior.detect hne' hfil']
    refine ⟨rfl, ⟨[Event.agentCall ("Phase_0_Attack_Detection")
        (strategyDir args ++ "/ATTACKS.json")] ++
      (processAttacks args w.behavior (strategyDir args)
        ((filteredAttacks args.attack (loadedAttacks w.behavior.detect)).getLastD
          { id := "", name := "" })
        (filteredAttacks args.attack (loadedAttacks w.behavior.detect)) w.fs 1).1,
      by simp⟩, ?_⟩
    intro a ha2
    have ha3 : a ∈ filteredAttacks args.attack (loadedAttacks w.behavior.detect) := by
      simpa [effectiveState, had] using ha2
    exact List.mem_append_left _ (List.mem_append_left _ (List.mem_append_right _
      (dcall_mem_processAttacks args w.behavior (strategyDir args) _ _ _ _ a ha3)))

/-- C4 witness at a concrete one-attack run with an agent that creates no
file at all (every phase postcondition check fails). -/
theorem run_progresses_unconditionally_witness :
    (main relayArgs worldOne).exitCode = 0 ∧
    (∃ pre, (main relayArgs worldOne).events = pre ++
      [Event.sleep 5,
       Event.agentCall ("Phase_E_Gap_Analysis")
         (strategyDir relayArgs ++ "/GAP_ANALYSIS.md")]) ∧
    (∀ a ∈ filteredAttacks relayArgs.attack (loadedAttacks (effectiveState relayArgs worldOne)),
      Event.agentCall ("Phase_D_Viability_" ++ a.id)
        (attackDir (strategyDir relayArgs) a ++ "/analysis.md")
          ∈ (main relayArgs worldOne).events) :=
  run_progresses_unconditionally relayArgs worldOne rfl rfl (by decide) (by decide) (by decide)

/-- C7: when `--skip-evidence` is supplied and `EVIDENCE_ANALYSIS.json`
already exists in the attack directory, the loop body performs no Phase A
agent invocation for that attack, leaves the existing file unchanged, and
passes exactly that file path on to Phases B and D. -/
theorem skip_evidence_reuses_existing_file (args : Args) (beh : AgentBehavior) (fs : FS)
    (k : Nat) (sdir : String) (a : Attack)
    (hse : args.skip_evidence = true)
    (hex : (fs (attackDir sdir a ++ "/EVIDENCE_ANALYSIS.json")).isSome = true) :
    (∀ f, Event.agentCall ("Phase_A_Evidence_" ++ a.id) f ∉
      (processAttack args beh fs k sdir a).events) ∧
    (processAttack args beh fs k sdir a).fs (attackDir sdir a ++ "/EVIDENCE_ANALYSIS.json") =
      fs (attackDir sdir a ++ "/EVIDENCE_ANALYSIS.json") ∧
    (processAttack args beh fs k sdir a).evidence_file =
      some (attackDir sdir a ++ "/EVIDENCE_ANALYSIS.json") := by
  have hcond : (args.skip_evidence &&
      (fs (attackDir sdir a ++ "/EVIDENCE_ANALYSIS.json")).isSome) = true := by
    simp [hse, hex]
  refine ⟨?_, ?_, ?_⟩
  · intro f
    by_cases hb : (args.skip_counter_req &&
        (fs (attackDir sdir a ++ "/counter_requirements.json")).isSome) = true
    · simp [processAttack, hcond, hb, phase_d_viability_analysis, run_agent,
        List.mem_append, phase_names_ne_AD a.id]
    · simp [processAttack, hcond, hb, phase_b_counter_requirements,
        phase_d_viability_analysis, run_agent, List.mem_append,
        phase_names_ne_AB a.id, phase_names_ne_AD a.id]
  · by_cases hb : (args.skip_counter_req &&
        (fs (attackDir sdir a ++ "/counter_requirements.json")).isSome) = true
    · simp only [processAttack, hcond, hb, phase_d_viability_analysis, if_true]
      exact run_agent_fs_ne beh fs k ("Phase_D_Viability_" ++ a.id)
        (attackDir sdir a ++ "/analysis.md")
        (attackDir sdir a ++ "/EVIDENCE_ANALYSIS.json")
        (append_left_ne (attackDir sdir a) (by decide))
    · simp [processAttack, hcond, hb, phase_b_counter_requirements,
        phase_d_viability_analysis]
      rw [run_agent_fs_ne beh _ _ ("Phase_D_Viability_" ++ a.id)
          (attackDir sdir a ++ "/analysis.md")
          (attackDir sdir a ++ "/EVIDENCE_ANALYSIS.json")
          (append_left_ne (attackDir sdir a) (by decide)),
        run_agent_fs_ne beh fs k ("Phase_B_Counter_Req_" ++ a.id)
          (attackDir sdir a ++ "/counter_requirements.json")
          (attackDir sdir a ++ "/EVIDENCE_ANALYSIS.json")
          (append_left_ne (attackDir sdir a) (by decide))]
  · simp [processAttack, hcond]

def skipArgs : Args :=
  { case_folder := "c", workspace := "w", strategy := "s", skip_evidence := true }

/-- A filesystem holding exactly one pre-existing evidence artifact. -/
def fsWithEvidence : FS :=
  fun p => if p = attackDir "S" atk001 ++ "/EVIDENCE_ANALYSIS.json" then some 7 else none

theorem skip_evidence_reuses_existing_file_witness :
    (∀ f, Event.agentCall ("Phase_A_Evidence_" ++ atk001.id) f ∉
      (processAttack skipArgs noAgent fsWithEvidence 0 "S" atk001).events) ∧
    (processAttack skipArgs noAgent fsWithEvidence 0 "S" atk001).fs
        (attackDir "S" atk001 ++ "/EVIDENCE_ANALYSIS.json") =
      fsWithEvidence (attackDir "S" atk001 ++ "/EVIDENCE_ANALYSIS.json") ∧
    (processAttack skipArgs noAgent fsWithEvidence 0 "S" atk001).evidence_file =
      some (attackDir "S" atk001 ++ "/EVIDENCE_ANALYSIS.json") :=
  skip_evidence_reuses_existing_file skipArgs noAgent fsWithEvidence 0 "S" atk001
    rfl (by decide)

/-- C9 (counterexample): the claim requires a 5-second sleep between every
pair of consecutive attacks, but the guard is the record comparison
`attack != attacks[-1]`, so when an earlier attack equals the last one
(duplicate entries) the inter-attack sleep is skipped: with attacks
`[atk001, atk001]`, Phase D of the first attack is immediately followed
by Phase A of the second, with no sleep between them. -/
theorem inter_attack_sleep_duplicate_counterexample :
    (main relayArgs worldDup).events =
      perAttackTrace (strategyDir relayArgs) atk001 ++
      perAttackTrace (strategyDir relayArgs) atk001 ++
      [Event.sleep 5,
       Event.agentCall ("Phase_E_Gap_Analysis")
         (strategyDir relayArgs ++ "/GAP_ANALYSIS.md")] ∧
    (main relayArgs worldDup).events ≠
      perAttackTrace (strategyDir relayArgs) atk001 ++ [Event.sleep 5] ++
      perAttackTrace (strategyDir relayArgs) atk001 ++
      [Event.sleep 5,
       Event.agentCall ("Phase_E_Gap_Analysis")
         (strategyDir relayArgs ++ "/GAP_ANALYSIS.md")] := by
  constructor <;> decide

/-- C9 (amended): in every run that reaches the attack loop with default
skip flags, a fixed 5-second sleep occurs between Phase A and Phase B and
between Phase B and Phase D of each attack, after each processed attack
that is not equal (as a record) to the last attack of the list, and
before Phase E; no other sleeps occur.  (For pairwise-distinct attack
lists this is a sleep between every pair of consecutive attacks; a
non-final attack equal to the final one gets no inter-attack sleep.) -/
theorem sleep_schedule (args : Args) (w : World)
    (hcf : w.case_folder_exists = true) (hws : w.workspace_exists = true)
    (h1 : args.skip_evidence = false) (h2 : args.skip_counter_req = false)
    (hp0 : args.auto_detect = true →
      (phase_0_detect_attacks w.behavior 0 (strategyDir args)).result ≠ none)
    (hne : (loadedAttacks (effectiveState args w)).isEmpty = false)
    (hfil : (args.attack.isSome &&
      (filteredAttacks args.attack (loadedAttacks (effectiveState args w))).isEmpty)
        = false) :
    (main args w).events =
      (if args.auto_detect then
        [Event.agentCall ("Phase_0_Attack_Detection") (strategyDir args ++ "/ATTACKS.json")]
       else []) ++
      ((filteredAttacks args.attack (loadedAttacks (effectiveState args w))).map
        (fun a => perAttackTrace (strategyDir args) a ++
          (if a = (filteredAttacks args.attack
              (loadedAttacks (effectiveState args w))).getLastD { id := "", name := "" }
           then [] else [Event.sleep 5]))).flatten ++
      [Event.sleep 5,
       Event.agentCall ("Phase_E_Gap_Analysis")
         (strategyDir args ++ "/GAP_ANALYSIS.md")] := by
  cases had : args.auto_detect with
  | false =>
    have hne' : (loadedAttacks w.attacks_file).isEmpty = false := by
      simpa [effectiveState, had] using hne
    have hfil' : (args.attack.isSome &&
        (filteredAttacks args.attack (loadedAttacks w.attacks_file)).isEmpty) = false := by
      simpa [effectiveState, had] using hfil
    rw [main_manual args w had hcf hws,
      mainWithAttacks_run args w (strategyDir args) [] 0 w.attacks_file hne' hfil']
    rw [show (processAttacks args w.behavior (strategyDir args)
        ((filteredAttacks args.attack (loadedAttacks w.attacks_file)).getLastD
          { id := "", name := "" })
        (filteredAttacks args.attack (loadedAttacks w.attacks_file)) w.fs 0).1 =
      ((filteredAttacks args.attack (loadedAttacks w.attacks_file)).map
        (fun a => perAttackTrace (strategyDir args) a ++
          (if a = (filteredAttacks args.attack (loadedAttacks w.attacks_file)).getLastD
              { id := "", name := "" } then [] else [Event.sleep 5]))).flatten from
      processAttacks_events_noskip args w.behavior (strategyDir args) _ h1 h2 _ _ _]
    simp [effectiveState, had]
  | true =>
    have hres := hp0 had
    have hne' : (loadedAttacks w.behavior.detect).isEmpty = false := by
      simpa [effectiveState, had] using hne
    have hfil' : (args.attack.isSome &&
        (filteredAttacks args.attack (loadedAttacks w.behavior.detect)).isEmpty)
          = false := by
      simpa [effectiveState, had] using hfil
    rw [main_auto args w had hcf hws hres,
      mainWithAttacks_run args w (strategyDir args) _ 1 w.behavior.detect hne' hfil']
    rw [show (processAttacks args w.behavior (strategyDir args)
        ((filteredAttacks args.attack (loadedAttacks w.behavior.detect)).getLastD
          { id := "", name := "" })
        (filteredAttacks args.attack (loadedAttacks w.behavior.detect)) w.fs 1).1 =
      ((filteredAttacks args.attack (loadedAttacks w.behavior.detect)).map
        (fun a => perAttackTrace (strategyDir args) a ++
          (if a = (filteredAttacks args.attack (loadedAttacks w.behavior.detect)).getLastD
              { id := "", name := "" } then [] else [Event.sleep 5]))).flatten from
      processAttacks_events_noskip args w.behavior (strategyDir args) _ h1 h2 _ _ _]
    simp [effectiveState, had]

/-- C9 witness at a concrete two-attack run with distinct attacks. -/
theorem sleep_schedule_witness :
    (main relayArgs worldTwo).events =
      (if relayArgs.auto_detect then
        [Event.agentCall ("Phase_0_Attack_Detection")
          (strategyDir relayArgs ++ "/ATTACKS.json")]
       else []) ++
      ((filteredAttacks relayArgs.attack (loadedAttacks (effectiveState relayArgs worldTwo))).map
        (fun a => perAttackTrace (strategyDir relayArgs) a ++
          (if a = (filteredAttacks relayArgs.attack
              (loadedAttacks (effectiveState relayArgs worldTwo))).getLastD
                { id := "", name := "" }
           then [] else [Event.sleep 5]))).flatten ++
      [Event.sleep 5,
       Event.agentCall ("Phase_E_Gap_Analysis")
         (strategyDir relayArgs ++ "/GAP_ANALYSIS.md")] :=
  sleep_schedule relayArgs worldTwo rfl rfl rfl rfl (by decide) (by decide) (by decide)

end StrategyRelay
